import Mathlib

/-!
Verification of the structured-output extraction / normalization pipeline of
src/scripts/llm_classifier.py (repository gemini-layout-bridge).

The Python values flowing through the pipeline are JSON-compatible values
(None, bool, int, str, list, dict).  They are embedded as the inductive type
Json below; dictionaries are association lists in insertion order, which is
exactly the observable order of a Python dict.  Fallible Python code
(statements that can raise) is embedded as Option-returning functions, with
none standing for a raised exception.  Floating point numbers never occur in
the modelled code paths and are outside the modelled universe.
-/

/-- JSON-compatible Python values: None, bool, int, str, list, dict. -/
inductive Json where
  | null : Json
  | bool : Bool → Json
  | num : Int → Json
  | str : String → Json
  | arr : List Json → Json
  | obj : List (String × Json) → Json

/-- First-match lookup in an association list (Python dict.get). -/
def lookupK : List (String × Json) → String → Option Json
  | [], _ => none
  | (k0, v0) :: rest, k => if k0 = k then some v0 else lookupK rest k

/-- Insert-or-replace in an association list, preserving insertion order
(Python dict item assignment). -/
def setK : List (String × Json) → String → Json → List (String × Json)
  | [], k, v => [(k, v)]
  | (k0, v0) :: rest, k, v =>
    if k0 = k then (k0, v) :: rest else (k0, v0) :: setK rest k v

/-- Key lookup on a Json value; none when the value is not a dict or the
key is absent. -/
def Json.look : Json → String → Option Json
  | Json.obj kvs, k => lookupK kvs k
  | _, _ => none

/-- Python dict.get with default None: absent keys give null. -/
def Json.getD (j : Json) (k : String) : Json :=
  (j.look k).getD Json.null

/-- Python key-membership test (the in operator on a dict). -/
def Json.hasKeyB (j : Json) (k : String) : Bool :=
  (j.look k).isSome

/-- Python dict item assignment d[k] = v; identity on non-dicts (the code
only assigns into values already known to be dicts). -/
def Json.setKey : Json → String → Json → Json
  | Json.obj kvs, k, v => Json.obj (setK kvs k v)
  | j, _, _ => j

/-- isinstance(x, dict). -/
def Json.isObjB : Json → Bool
  | Json.obj _ => true
  | _ => false

/-- Python truthiness of a JSON-compatible value: None, False, 0, empty
string, empty list and empty dict are falsy. -/
def truthy : Json → Bool
  | Json.null => false
  | Json.bool b => b
  | Json.num n => decide (n ≠ 0)
  | Json.str s => decide (s ≠ "")
  | Json.arr xs => !xs.isEmpty
  | Json.obj kvs => !kvs.isEmpty

/-- The Python expression a or b on JSON-compatible values. -/
def pyOr (a b : Json) : Json :=
  if truthy a then a else b

/-- allowed_module_types (src/scripts/llm_classifier.py lines 25-41): the
closed set of module_type labels, as a list. -/
def allowed_module_types : List String :=
  ["hero", "feature_grid", "steps_grid", "pricing_table",
   "testimonials_slider", "contact_form", "nav", "footer", "code", "generic"]

/-- The Python membership test module_type in allowed_module_types for a
hashable value: only an equal string is a member. -/
def allowedB : Json → Bool
  | Json.str s => allowed_module_types.contains s
  | _ => false

/-- The Python comparison module_type != "code". -/
def neqCodeStr : Json → Bool
  | Json.str s => decide (s ≠ "code")
  | _ => true

/-- Is the value neither a list nor a dict (hashable in the modelled
universe)? -/
def notContainer : Json → Bool
  | Json.arr _ => false
  | Json.obj _ => false
  | _ => true

/-- The coercion at the top of normalize_result (line 298-299):
if not isinstance(result, dict): result = {}. -/
def dictCoerce : Json → Json
  | Json.obj kvs => Json.obj kvs
  | _ => Json.obj []

/-- Line 301: rtype = result.get("type") or "generic". -/
def rtypeOf (x : Json) : Json :=
  pyOr ((dictCoerce x).getD "type") (Json.str "generic")

/-- Line 302: builder = result.get("builder") or {}. -/
def builderOf (x : Json) : Json :=
  pyOr ((dictCoerce x).getD "builder") (Json.obj [])

/-- Line 303: divi = builder.get("divi") or {}.  (Evaluated only when
builder is a dict; total here, the dict check is in normalize_result.) -/
def diviOf (x : Json) : Json :=
  pyOr ((builderOf x).getD "divi") (Json.obj [])

/-- Line 305: module_type = divi.get("module_type") or "generic". -/
def candModuleType (x : Json) : Json :=
  pyOr ((diviOf x).getD "module_type") (Json.str "generic")

/-- The module_type clamp (lines 307-309): keep members of the allowed
set; otherwise prefer generic unless the value is the string code. -/
def mtClamp (mt0 : Json) : Json :=
  if allowedB mt0 then mt0
  else if neqCodeStr mt0 then Json.str "generic" else Json.str "code"

/-- Lines 311-313: write the clamped module_type into divi, then default
params to an empty dict when absent or not a dict. -/
def diviStep (divi mt0 : Json) : Json :=
  let divi1 := divi.setKey "module_type" (mtClamp mt0)
  if !(divi1.hasKeyB "params") || !((divi1.getD "params").isObjB)
  then divi1.setKey "params" (Json.obj []) else divi1

/-- Lines 320-321: default the source tag when missing. -/
def sourceStep (r2 : Json) : Json :=
  if r2.hasKeyB "source" then r2 else r2.setKey "source" (Json.str "llm")

/-- The straight-line tail of normalize_result (lines 306-323) once the
field reads have succeeded: clamp module_type (lines 307-311), default
params (lines 312-313), reassemble (lines 315-317), default source
(lines 320-321). -/
def normTail (r0 rtype builder divi mt0 : Json) : Json :=
  sourceStep (((r0.setKey "builder" (builder.setKey "divi" (diviStep divi mt0))).setKey
    "type" rtype))

/-- normalize_result (src/scripts/llm_classifier.py lines 294-323).
Returns none exactly where the Python raises: builder.get("divi") with a
truthy non-dict builder (AttributeError), divi.get("module_type") with a
truthy non-dict divi (AttributeError), and the set-membership test
module_type not in allowed with a truthy unhashable (list or dict)
module_type (TypeError). -/
def normalize_result (result : Json) : Option Json :=
  match builderOf result with
  | Json.obj _ =>
    match diviOf result with
    | Json.obj _ =>
      match candModuleType result with
      | Json.arr _ => none
      | Json.obj _ => none
      | _ => some (normTail (dictCoerce result) (rtypeOf result)
                     (builderOf result) (diviOf result) (candModuleType result))
    | _ => none
  | _ => none

/-- The inputs on which normalize_result raises no exception: builder and
divi field reads land on dicts (or falsy values coerced to empty dicts)
and the effective module_type is hashable. -/
def normalizeOk (x : Json) : Bool :=
  (builderOf x).isObjB && (diviOf x).isObjB && notContainer (candModuleType x)

/-!
String utilities modelling the Python string operations used by the
pipeline: str.strip, str.lower, the whitespace-collapsing re.sub, the
tag-stripping re.sub, and the brace-slicing re.search.  Unicode-specific
behaviour (non-ASCII case mapping, non-ASCII whitespace) is outside the
modelled scope; every string the pipeline treats specially is ASCII.
-/

/-- ASCII whitespace as matched by Python str.strip and the regex class
backslash-s. -/
def isPyWs (c : Char) : Bool :=
  c = ' ' || c = '\t' || c = '\n' || c = '\r' || c = '\x0b' || c = '\x0c'

/-- Python str.strip on a character list. -/
def stripList (l : List Char) : List Char :=
  ((l.dropWhile isPyWs).reverse.dropWhile isPyWs).reverse

/-- Python str.strip. -/
def pyStrip (s : String) : String :=
  String.mk (stripList s.data)

/-- One pass of the whitespace-collapsing substitution: each maximal run
of whitespace becomes a single space.  The flag records whether the
previous character was part of a whitespace run. -/
def collapseWsAux : Bool → List Char → List Char
  | _, [] => []
  | prevWs, c :: rest =>
    if isPyWs c then
      if prevWs then collapseWsAux true rest
      else ' ' :: collapseWsAux true rest
    else c :: collapseWsAux false rest

/-- normalize_whitespace (src/scripts/llm_classifier.py lines 21-22). -/
def normalize_whitespace (s : String) : String :=
  pyStrip (String.mk (collapseWsAux false s.data))

/-- Python str.lower restricted to ASCII (the only case-mapped characters
reachable in the modelled strings). -/
def lowerChar : Char → Char
  | 'A' => 'a' | 'B' => 'b' | 'C' => 'c' | 'D' => 'd' | 'E' => 'e'
  | 'F' => 'f' | 'G' => 'g' | 'H' => 'h' | 'I' => 'i' | 'J' => 'j'
  | 'K' => 'k' | 'L' => 'l' | 'M' => 'm' | 'N' => 'n' | 'O' => 'o'
  | 'P' => 'p' | 'Q' => 'q' | 'R' => 'r' | 'S' => 's' | 'T' => 't'
  | 'U' => 'u' | 'V' => 'v' | 'W' => 'w' | 'X' => 'x' | 'Y' => 'y'
  | 'Z' => 'z'
  | c => c

/-- Python str.lower. -/
def strLower (s : String) : String :=
  String.mk (s.data.map lowerChar)

/-- Scan for the end of an angle-bracket tag: the remainder of the list
after the first close-angle character, if any. -/
def skipToGt : List Char → Option (List Char)
  | [] => none
  | c :: rest => if c = '>' then some rest else skipToGt rest

/-- Given the characters after an open-angle character, the remainder after
a tag match of the regex: at least one non-close character, then the first
close-angle character. -/
def afterTag : List Char → Option (List Char)
  | [] => none
  | c :: rest => if c = '>' then none else skipToGt rest

/-- The tag-stripping substitution of heuristic_classify (line 53):
each tag match is replaced by a single space; an unmatched open-angle
character is kept.  Fuel-driven (fuel bounds the number of characters
consumed; the wrapper supplies the list length). -/
def stripTagsF : Nat → List Char → List Char
  | 0, l => l
  | _ + 1, [] => []
  | fuel + 1, '<' :: rest =>
    match afterTag rest with
    | some rest2 => ' ' :: stripTagsF fuel rest2
    | none => '<' :: stripTagsF fuel rest
  | fuel + 1, c :: rest => c :: stripTagsF fuel rest

/-- The tag-stripping substitution re.sub on a string. -/
def stripTags (s : String) : String :=
  String.mk (stripTagsF s.data.length s.data)

/-- The text normalization at the top of heuristic_classify (lines 52-54):
strip tags, collapse whitespace, strip, lowercase. -/
def prepText (html : String) : String :=
  strLower (normalize_whitespace (stripTags html))

/-- Index of the first occurrence of a character. -/
def firstIdx (c : Char) : List Char → Option Nat
  | [] => none
  | a :: rest => if a = c then some 0 else (firstIdx c rest).map (· + 1)

/-- Index of the last occurrence of a character. -/
def lastIdx (c : Char) (l : List Char) : Option Nat :=
  (firstIdx c l.reverse).map (fun k => l.length - 1 - k)

/-- extract_json (src/scripts/llm_classifier.py lines 216-223).  The regex
search for an open brace, anything, close brace (greedy) matches exactly
when some close brace strictly follows the first open brace, and the match
runs from the first open brace to the last close brace; otherwise the
function returns the stripped input text. -/
def extract_json (s : String) : String :=
  match firstIdx '{' s.data, lastIdx '}' s.data with
  | some i, some j =>
    if i < j then String.mk ((s.data.drop i).take (j + 1 - i)) else pyStrip s
  | some _, none => pyStrip s
  | none, _ => pyStrip s

/-!
A strict JSON parser modelling Python json.loads on the modelled value
universe (null, booleans, integers, strings with simple escapes, arrays,
objects).  Like json.loads it allows no trailing commas and no comments.
Floats and backslash-u escapes are outside the modelled scope.  The parser
is fuel-driven; the wrapper supplies more fuel than any input can consume.
-/

/-- JSON insignificant whitespace. -/
def isJsonWs (c : Char) : Bool :=
  c = ' ' || c = '\t' || c = '\n' || c = '\r'

/-- Drop leading JSON whitespace. -/
def skipWs (l : List Char) : List Char :=
  l.dropWhile isJsonWs

/-- Is one character list a prefix of another (character-wise). -/
def prefCh : List Char → List Char → Bool
  | [], _ => true
  | a :: as, s =>
    match s with
    | [] => false
    | b :: bs => a = b && prefCh as bs

/-- Single-character string escapes accepted by the JSON grammar. -/
def escChar (c : Char) : Option Char :=
  if c = '"' || c = '\\' || c = '/' then some c
  else if c = 'n' then some '\n'
  else if c = 't' then some '\t'
  else if c = 'r' then some '\r'
  else if c = 'b' then some '\x08'
  else if c = 'f' then some '\x0c'
  else none

/-- Parse the body of a JSON string after the opening quote: the decoded
characters and the remainder after the closing quote. -/
def parseStrChars : List Char → Option (List Char × List Char)
  | [] => none
  | '"' :: rest => some ([], rest)
  | '\\' :: c :: rest =>
    match escChar c with
    | some d =>
      match parseStrChars rest with
      | some (cs, r) => some (d :: cs, r)
      | none => none
    | none => none
  | c :: rest =>
    match parseStrChars rest with
    | some (cs, r) => some (c :: cs, r)
    | none => none

/-- Value of a digit run. -/
def digitsVal (l : List Char) : Nat :=
  l.foldl (fun acc c => acc * 10 + (c.toNat - 48)) 0

/-- Parse a nonempty digit run as a natural number. -/
def parseNatCh (l : List Char) : Option (Nat × List Char) :=
  let ds := l.takeWhile Char.isDigit
  if ds.isEmpty then none else some (digitsVal ds, l.dropWhile Char.isDigit)

/-- Parse a JSON integer (optional minus sign, digit run). -/
def parseNumber (l : List Char) : Option (Json × List Char) :=
  match l with
  | '-' :: rest =>
    match parseNatCh rest with
    | some (n, r) => some (Json.num (-(n : Int)), r)
    | none => none
  | _ =>
    match parseNatCh l with
    | some (n, r) => some (Json.num (n : Int), r)
    | none => none

/-- Parser mode: a single value, the members of an object (accumulated in
insertion order, later duplicates overwriting as in Python), or the
elements of an array. -/
inductive PMode where
  | val : PMode
  | members : List (String × Json) → PMode
  | elems : List Json → PMode

/-- The recursive descent core of the json.loads model.  In val mode it
parses one value; in members mode it parses the members of an object after
the opening brace (the empty-object case is handled by the caller); in
elems mode it parses the elements of an array after the opening bracket. -/
def parseJ : Nat → PMode → List Char → Option (Json × List Char)
  | 0, _, _ => none
  | fuel + 1, PMode.val, l =>
    match skipWs l with
    | [] => none
    | 'n' :: rest =>
      if prefCh "ull".data rest then some (Json.null, rest.drop 3) else none
    | 't' :: rest =>
      if prefCh "rue".data rest then some (Json.bool true, rest.drop 3) else none
    | 'f' :: rest =>
      if prefCh "alse".data rest then some (Json.bool false, rest.drop 4) else none
    | '"' :: rest =>
      match parseStrChars rest with
      | some (cs, r) => some (Json.str (String.mk cs), r)
      | none => none
    | '{' :: rest =>
      match skipWs rest with
      | '}' :: r => some (Json.obj [], r)
      | l2 => parseJ fuel (PMode.members []) l2
    | '[' :: rest =>
      match skipWs rest with
      | ']' :: r => some (Json.arr [], r)
      | l2 => parseJ fuel (PMode.elems []) l2
    | l2 => parseNumber l2
  | fuel + 1, PMode.members acc, l =>
    match l with
    | '"' :: rest =>
      match parseStrChars rest with
      | some (cs, r1) =>
        match skipWs r1 with
        | ':' :: r2 =>
          match parseJ fuel PMode.val r2 with
          | some (v, r3) =>
            match skipWs r3 with
            | ',' :: r4 => parseJ fuel (PMode.members (setK acc (String.mk cs) v)) (skipWs r4)
            | '}' :: r4 => some (Json.obj (setK acc (String.mk cs) v), r4)
            | _ => none
          | none => none
        | _ => none
      | none => none
    | _ => none
  | fuel + 1, PMode.elems acc, l =>
    match parseJ fuel PMode.val l with
    | some (v, r) =>
      match skipWs r with
      | ',' :: r2 => parseJ fuel (PMode.elems (acc ++ [v])) r2
      | ']' :: r2 => some (Json.arr (acc ++ [v]), r2)
      | _ => none
    | none => none

/-- json.loads: parse a complete JSON document; fail on trailing data
(Python raises json.JSONDecodeError in both failure cases). -/
def json_loads (s : String) : Option Json :=
  match parseJ (s.data.length + 1) PMode.val s.data with
  | some (v, rest) => if skipWs rest = [] then some v else none
  | none => none

/-!
The heuristic classifier (src/scripts/llm_classifier.py lines 47-187) and
the substring tests it performs (the Python in operator on strings).
-/

/-- Does the pattern occur as a contiguous substring (Python sub in s)? -/
def hasSubstr (pat : List Char) : List Char → Bool
  | [] => prefCh pat []
  | c :: rest => prefCh pat (c :: rest) || hasSubstr pat rest

/-- Python substring containment test: sub in text. -/
def pyInStr (sub text : String) : Bool :=
  hasSubstr sub.data text.data

/-- The record returned by the pricing rule (lines 59-72). -/
def pricingRecord : Json :=
  Json.obj [("type", Json.str "pricing"),
    ("builder", Json.obj [("divi", Json.obj
      [("module_type", Json.str "pricing_table"),
       ("params", Json.obj [("columns", Json.num 2),
                            ("has_primary_plan", Json.bool true)])])]),
    ("source", Json.str "heuristic")]

/-- The record returned by the testimonials rule (lines 75-85). -/
def testimonialsRecord : Json :=
  Json.obj [("type", Json.str "testimonials"),
    ("builder", Json.obj [("divi", Json.obj
      [("module_type", Json.str "testimonials_slider"),
       ("params", Json.obj [])])]),
    ("source", Json.str "heuristic")]

/-- The record returned by the contact rule (lines 88-100). -/
def contactRecord : Json :=
  Json.obj [("type", Json.str "contact"),
    ("builder", Json.obj [("divi", Json.obj
      [("module_type", Json.str "contact_form"),
       ("params", Json.obj [])])]),
    ("source", Json.str "heuristic")]

/-- The record returned by the steps rule (lines 103-115). -/
def stepsRecord : Json :=
  Json.obj [("type", Json.str "steps"),
    ("builder", Json.obj [("divi", Json.obj
      [("module_type", Json.str "steps_grid"),
       ("params", Json.obj [("columns", Json.num 3)])])]),
    ("source", Json.str "heuristic")]

/-- The record returned by the features rule (lines 118-128). -/
def featuresRecord : Json :=
  Json.obj [("type", Json.str "features"),
    ("builder", Json.obj [("divi", Json.obj
      [("module_type", Json.str "feature_grid"),
       ("params", Json.obj [])])]),
    ("source", Json.str "heuristic")]

/-- The record returned by the hero rule (lines 131-145). -/
def heroRecord : Json :=
  Json.obj [("type", Json.str "hero"),
    ("builder", Json.obj [("divi", Json.obj
      [("module_type", Json.str "hero"),
       ("params", Json.obj [])])]),
    ("source", Json.str "heuristic")]

/-- The record returned by the security-highlight rule (lines 148-158). -/
def securityRecord : Json :=
  Json.obj [("type", Json.str "generic"),
    ("builder", Json.obj [("divi", Json.obj
      [("module_type", Json.str "feature_grid"),
       ("params", Json.obj [])])]),
    ("source", Json.str "heuristic")]

/-- The record returned by the footer rule (lines 161-171). -/
def footerRecord : Json :=
  Json.obj [("type", Json.str "footer"),
    ("builder", Json.obj [("divi", Json.obj
      [("module_type", Json.str "footer"),
       ("params", Json.obj [])])]),
    ("source", Json.str "heuristic")]

/-- The record returned by the nav rule (lines 174-184). -/
def navRecord : Json :=
  Json.obj [("type", Json.str "nav"),
    ("builder", Json.obj [("divi", Json.obj
      [("module_type", Json.str "nav"),
       ("params", Json.obj [])])]),
    ("source", Json.str "heuristic")]

/-- heuristic_classify (src/scripts/llm_classifier.py lines 47-187): the
rule cascade over the normalized lowercased tag-stripped text, in source
order; None when no rule matches.  Note that the first hero disjunct tests
the mixed-case literal of line 132 against the lowercased text. -/
def heuristic_classify (html : String) : Option Json :=
  let text := prepText html
  if pyInStr "pricing" text && pyInStr "$" text then some pricingRecord
  else if pyInStr "testimonial" text || pyInStr "what our clients say" text
       || pyInStr "saved me hours" text then some testimonialsRecord
  else if (pyInStr "contact" text || pyInStr "send message" text)
       && (pyInStr "email" text || pyInStr "message" text || pyInStr "form" text)
       then some contactRecord
  else if pyInStr "how it works" text || pyInStr "three steps" text
       || pyInStr "step 01" text then some stepsRecord
  else if pyInStr "features" text && (pyInStr "why use" text || pyInStr "bridge" text)
       then some featuresRecord
  else if pyInStr "wordPress in seconds" text || pyInStr "gemini pro layouts" text
       || pyInStr "stop rebuilding ai designs" text then some heroRecord
  else if pyInStr "secure by design" text || pyInStr "no api keys required" text
       then some securityRecord
  else if pyInStr "&copy" text || pyInStr "all rights reserved" text
       then some footerRecord
  else if pyInStr "#pricing" text || pyInStr "#features" text
       || pyInStr "#how-it-works" text then some navRecord
  else none

/-- The predicate of the i-th registered heuristic rule (registration
order is source order). -/
def rulePred (i : Nat) (t : String) : Bool :=
  match i with
  | 0 => pyInStr "pricing" t && pyInStr "$" t
  | 1 => pyInStr "testimonial" t || pyInStr "what our clients say" t
         || pyInStr "saved me hours" t
  | 2 => (pyInStr "contact" t || pyInStr "send message" t)
         && (pyInStr "email" t || pyInStr "message" t || pyInStr "form" t)
  | 3 => pyInStr "how it works" t || pyInStr "three steps" t || pyInStr "step 01" t
  | 4 => pyInStr "features" t && (pyInStr "why use" t || pyInStr "bridge" t)
  | 5 => pyInStr "wordPress in seconds" t || pyInStr "gemini pro layouts" t
         || pyInStr "stop rebuilding ai designs" t
  | 6 => pyInStr "secure by design" t || pyInStr "no api keys required" t
  | 7 => pyInStr "&copy" t || pyInStr "all rights reserved" t
  | 8 => pyInStr "#pricing" t || pyInStr "#features" t || pyInStr "#how-it-works" t
  | _ => false

/-- The record of the i-th registered heuristic rule. -/
def ruleRecord (i : Nat) : Json :=
  match i with
  | 0 => pricingRecord
  | 1 => testimonialsRecord
  | 2 => contactRecord
  | 3 => stepsRecord
  | 4 => featuresRecord
  | 5 => heroRecord
  | 6 => securityRecord
  | 7 => footerRecord
  | 8 => navRecord
  | _ => Json.null

/-!
The entry point main (src/scripts/llm_classifier.py lines 326-370) and the
JSON-handling tail of llm_classify (lines 284-291), modelled as functions
of the inference collaborator's decoded output text (the model call itself
is an external collaborator and out of scope).
-/

/-- The record printed for empty input html (lines 338-344). -/
def empty_record : Json :=
  Json.obj [("type", Json.str "generic"),
    ("builder", Json.obj [("divi", Json.obj
      [("module_type", Json.str "code"), ("params", Json.obj [])])]),
    ("source", Json.str "empty")]

/-- The last-resort fallback record of main (lines 361-365). -/
def fallback_error_record : Json :=
  Json.obj [("type", Json.str "generic"),
    ("builder", Json.obj [("divi", Json.obj
      [("module_type", Json.str "code"), ("params", Json.obj [])])]),
    ("source", Json.str "fallback_error")]

/-- The tail of llm_classify (lines 284-291) given the decoded output
text: extract the brace span, parse it, tag the source.  none models a
raised exception (the explicit ValueError on parse failure, or the
TypeError of the item assignment when the parsed value is not a dict). -/
def llm_classify_model (out_text : String) : Option Json :=
  match json_loads (extract_json out_text) with
  | none => none
  | some d =>
    match d with
    | Json.obj _ => some (d.setKey "source" (Json.str "llm"))
    | _ => none

/-- The LLM branch of main (lines 355-370): any exception from
llm_classify is caught and the fallback record printed; otherwise the
parsed result is normalized.  none models a crash of normalize_result
itself, which main does not guard. -/
def main_llm_branch (out_text : String) : Option Json :=
  match llm_classify_model out_text with
  | none => some fallback_error_record
  | some raw => normalize_result raw

/-- The decision flow of main (lines 326-370) given the request's html
and the inference collaborator's decoded output text: short-circuit on
blank html, then heuristics, then the LLM branch. -/
def main_classify (html out_text : String) : Option Json :=
  if pyStrip html = "" then some empty_record
  else
    match heuristic_classify html with
    | some h => normalize_result h
    | none => main_llm_branch out_text

/-!
Concrete sanity checks of the embedded definitions, matching hand
evaluations of the Python.
-/

example : normalize_result (Json.obj [("builder", Json.num 1)]) = none := rfl

example : Option.map (fun r => Json.getD r "type")
    (normalize_result (Json.obj [("type", Json.str "not-a-real-type")]))
    = some (Json.str "not-a-real-type") := rfl

example : Option.map (fun r => ((r.getD "builder").getD "divi").getD "module_type")
    (normalize_result (Json.obj [])) = some (Json.str "generic") := rfl

example : extract_json "noise \x7b\"a\":1\x7d trailing" = "\x7b\"a\":1\x7d" := rfl

example : extract_json "\x7b\"a\":1,\x7d" = "\x7b\"a\":1,\x7d" := rfl

example : extract_json "hello" = "hello" := rfl

example : prepText "<h1>Hello  World</h1>" = "hello world" := rfl

example : json_loads "null" = some Json.null := rfl

example : json_loads "\x7b\"a\":1\x7d" = some (Json.obj [("a", Json.num 1)]) := rfl

example : json_loads "\x7b\"a\":1,\x7d" = none := rfl

example : json_loads "I cannot help with that." = none := rfl

example : json_loads " \x7b\"a\": [1, true, \"x\"], \"b\": \x7b\x7d\x7d " =
  some (Json.obj [("a", Json.arr [Json.num 1, Json.bool true, Json.str "x"]),
                  ("b", Json.obj [])]) := rfl

example : json_loads "-12" = some (Json.num (-12)) := rfl

example : json_loads "\x7b\"a\":1" = none := rfl

example : main_classify "" "" = some empty_record := rfl

example : main_classify "   " "" = some empty_record := rfl

example : main_classify "just random text" "I cannot help with that."
    = some fallback_error_record := rfl

example : heuristic_classify "Pricing: $5/mo" = some pricingRecord := rfl

example : heuristic_classify "wordpress in seconds" = none := rfl

example : heuristic_classify "pricing $ and a testimonial" = some pricingRecord := rfl

/-!
Association-list and field-access lemmas used throughout.
-/

theorem lookupK_setK_self (l : List (String × Json)) (k : String) (v : Json) :
    lookupK (setK l k v) k = some v := by
  induction l with
  | nil => simp [setK, lookupK]
  | cons kv rest ih =>
    obtain ⟨k0, v0⟩ := kv
    by_cases h : k0 = k
    · simp [setK, h, lookupK]
    · simp [setK, h, lookupK, ih]

theorem lookupK_setK_ne (l : List (String × Json)) (k k2 : String) (v : Json)
    (hne : k2 ≠ k) : lookupK (setK l k2 v) k = lookupK l k := by
  induction l with
  | nil => simp [setK, lookupK, hne]
  | cons kv rest ih =>
    obtain ⟨k0, v0⟩ := kv
    by_cases h : k0 = k2
    · subst h
      simp [setK, lookupK, hne]
    · simp [setK, h, lookupK, ih]

theorem setK_of_lookupK (l : List (String × Json)) (k : String) (v : Json)
    (h : lookupK l k = some v) : setK l k v = l := by
  induction l with
  | nil => simp [lookupK] at h
  | cons kv rest ih =>
    obtain ⟨k0, v0⟩ := kv
    by_cases h0 : k0 = k
    · simp [lookupK, h0] at h
      simp [setK, h0, h]
    · simp [lookupK, h0] at h
      simp [setK, h0, ih h]

theorem setK_isEmpty (l : List (String × Json)) (k : String) (v : Json) :
    (setK l k v).isEmpty = false := by
  cases l with
  | nil => simp [setK]
  | cons kv rest =>
    obtain ⟨k0, v0⟩ := kv
    by_cases h : k0 = k <;> simp [setK, h]

/-- A value with a successful key lookup is a dict. -/
theorem isObjB_of_look (j : Json) (k : String) (v : Json)
    (h : j.look k = some v) : j.isObjB = true := by
  cases j <;> simp [Json.look] at h <;> simp [Json.isObjB]

theorem look_setKey_self (j : Json) (hj : j.isObjB = true) (k : String) (v : Json) :
    (j.setKey k v).look k = some v := by
  cases j <;> simp [Json.isObjB] at hj
  simp [Json.setKey, Json.look, lookupK_setK_self]

theorem look_setKey_ne (j : Json) (k k2 : String) (v : Json)
    (hne : k2 ≠ k) : (j.setKey k2 v).look k = j.look k := by
  cases j <;> simp [Json.setKey, Json.look]
  exact lookupK_setK_ne _ _ _ _ hne

theorem setKey_of_look (j : Json) (k : String) (v : Json)
    (h : j.look k = some v) : j.setKey k v = j := by
  cases j <;> simp [Json.look] at h
  simp [Json.setKey, setK_of_lookupK _ _ _ h]

theorem setKey_isObjB (j : Json) (hj : j.isObjB = true) (k : String) (v : Json) :
    (j.setKey k v).isObjB = true := by
  cases j <;> simp [Json.isObjB] at hj ⊢ <;> simp [Json.setKey, Json.isObjB]

theorem setKey_truthy (j : Json) (hj : j.isObjB = true) (k : String) (v : Json) :
    truthy (j.setKey k v) = true := by
  cases j <;> simp [Json.isObjB] at hj
  simp [Json.setKey, truthy, setK_isEmpty]

theorem getD_of_look (j : Json) (k : String) (v : Json) (h : j.look k = some v) :
    j.getD k = v := by
  simp [Json.getD, h]

theorem truthy_pyOr (a b : Json) (h : truthy b = true) : truthy (pyOr a b) = true := by
  unfold pyOr
  split <;> simp [*]

theorem pyOr_of_truthy (a b : Json) (h : truthy a = true) : pyOr a b = a := by
  simp [pyOr, h]

theorem dictCoerce_isObjB (x : Json) : (dictCoerce x).isObjB = true := by
  cases x <;> simp [dictCoerce, Json.isObjB]

theorem rtypeOf_truthy (x : Json) : truthy (rtypeOf x) = true :=
  truthy_pyOr _ _ (by decide)

theorem candModuleType_truthy (x : Json) : truthy (candModuleType x) = true :=
  truthy_pyOr _ _ (by decide)

theorem allowedB_mtClamp (mt0 : Json) : allowedB (mtClamp mt0) = true := by
  unfold mtClamp
  by_cases h : allowedB mt0 = true
  · simp [h]
  · simp [h]
    split <;> decide

theorem truthy_mtClamp (mt0 : Json) (h : truthy mt0 = true) :
    truthy (mtClamp mt0) = true := by
  unfold mtClamp
  split
  · exact h
  · split <;> decide

theorem notContainer_mtClamp (mt0 : Json) (h : notContainer mt0 = true) :
    notContainer (mtClamp mt0) = true := by
  unfold mtClamp
  split
  · exact h
  · split <;> decide

theorem dictCoerce_of_isObjB (j : Json) (h : j.isObjB = true) : dictCoerce j = j := by
  cases j <;> simp [Json.isObjB] at h <;> rfl

theorem mtClamp_of_allowed (m : Json) (h : allowedB m = true) : mtClamp m = m := by
  unfold mtClamp
  rw [h]
  simp

theorem diviStep_look_mt (divi mt0 : Json) (hd : divi.isObjB = true) :
    (diviStep divi mt0).look "module_type" = some (mtClamp mt0) := by
  have h1 : (divi.setKey "module_type" (mtClamp mt0)).look "module_type"
      = some (mtClamp mt0) := look_setKey_self divi hd _ _
  dsimp only [diviStep]
  split
  · rw [look_setKey_ne _ _ _ _ (by decide : ("params" : String) ≠ "module_type")]
    exact h1
  · exact h1

theorem diviStep_isObjB (divi mt0 : Json) (hd : divi.isObjB = true) :
    (diviStep divi mt0).isObjB = true := by
  have h1 := setKey_isObjB divi hd "module_type" (mtClamp mt0)
  dsimp only [diviStep]
  split
  · exact setKey_isObjB _ h1 _ _
  · exact h1

theorem diviStep_truthy (divi mt0 : Json) (hd : divi.isObjB = true) :
    truthy (diviStep divi mt0) = true := by
  have h1 := setKey_isObjB divi hd "module_type" (mtClamp mt0)
  dsimp only [diviStep]
  split
  · exact setKey_truthy _ h1 _ _
  · exact setKey_truthy divi hd _ _

theorem diviStep_params (divi mt0 : Json) (hd : divi.isObjB = true) :
    ∃ p, (diviStep divi mt0).look "params" = some p ∧ p.isObjB = true := by
  have h1 := setKey_isObjB divi hd "module_type" (mtClamp mt0)
  dsimp only [diviStep]
  split
  · exact ⟨Json.obj [], look_setKey_self _ h1 _ _, rfl⟩
  · rename_i h
    simp only [Bool.or_eq_true, Bool.not_eq_true', Bool.not_eq_true] at h
    push_neg at h
    obtain ⟨hk, ho⟩ := h
    rw [Bool.ne_false_iff] at hk ho
    unfold Json.hasKeyB at hk
    obtain ⟨p, hp⟩ := Option.isSome_iff_exists.mp hk
    refine ⟨p, hp, ?_⟩
    rw [getD_of_look _ _ _ hp] at ho
    exact ho

theorem normTail_look_type (r0 rtype builder divi mt0 : Json) (hr0 : r0.isObjB = true) :
    (normTail r0 rtype builder divi mt0).look "type" = some rtype := by
  have h1 : (r0.setKey "builder" (builder.setKey "divi" (diviStep divi mt0))).isObjB
      = true := setKey_isObjB r0 hr0 _ _
  have h2 : ((r0.setKey "builder" (builder.setKey "divi"
      (diviStep divi mt0))).setKey "type" rtype).look "type" = some rtype :=
    look_setKey_self _ h1 _ _
  dsimp only [normTail, sourceStep]
  split
  · exact h2
  · rw [look_setKey_ne _ _ _ _ (by decide : ("source" : String) ≠ "type")]
    exact h2

theorem normTail_look_builder (r0 rtype builder divi mt0 : Json)
    (hr0 : r0.isObjB = true) :
    (normTail r0 rtype builder divi mt0).look "builder"
      = some (builder.setKey "divi" (diviStep divi mt0)) := by
  have h1 : (r0.setKey "builder" (builder.setKey "divi" (diviStep divi mt0))).look
      "builder" = some (builder.setKey "divi" (diviStep divi mt0)) :=
    look_setKey_self r0 hr0 _ _
  have h2 : ((r0.setKey "builder" (builder.setKey "divi"
      (diviStep divi mt0))).setKey "type" rtype).look "builder"
      = some (builder.setKey "divi" (diviStep divi mt0)) := by
    rw [look_setKey_ne _ _ _ _ (by decide : ("type" : String) ≠ "builder")]
    exact h1
  dsimp only [normTail, sourceStep]
  split
  · exact h2
  · rw [look_setKey_ne _ _ _ _ (by decide : ("source" : String) ≠ "builder")]
    exact h2

theorem normTail_isObjB (r0 rtype builder divi mt0 : Json) (hr0 : r0.isObjB = true) :
    (normTail r0 rtype builder divi mt0).isObjB = true := by
  have h1 : ((r0.setKey "builder" (builder.setKey "divi"
      (diviStep divi mt0))).setKey "type" rtype).isObjB = true :=
    setKey_isObjB _ (setKey_isObjB r0 hr0 _ _) _ _
  dsimp only [normTail, sourceStep]
  split
  · exact h1
  · exact setKey_isObjB _ h1 _ _

theorem normTail_hasKey_source (r0 rtype builder divi mt0 : Json)
    (hr0 : r0.isObjB = true) :
    (normTail r0 rtype builder divi mt0).hasKeyB "source" = true := by
  have h1 : ((r0.setKey "builder" (builder.setKey "divi"
      (diviStep divi mt0))).setKey "type" rtype).isObjB = true :=
    setKey_isObjB _ (setKey_isObjB r0 hr0 _ _) _ _
  dsimp only [normTail, sourceStep]
  split
  · rename_i h
    exact h
  · unfold Json.hasKeyB
    rw [look_setKey_self _ h1 _ _]
    rfl

/-- Reduction of normalize_result on inputs where no field read raises. -/
theorem normalize_result_eq_some (x : Json) (hb : (builderOf x).isObjB = true)
    (hd : (diviOf x).isObjB = true) (hm : notContainer (candModuleType x) = true) :
    normalize_result x = some (normTail (dictCoerce x) (rtypeOf x)
      (builderOf x) (diviOf x) (candModuleType x)) := by
  unfold normalize_result
  cases hB : builderOf x <;> rw [hB] at hb <;> simp [Json.isObjB] at hb
  cases hD : diviOf x <;> rw [hD] at hd <;> simp [Json.isObjB] at hd
  cases hM : candModuleType x <;> rw [hM] at hm <;> simp [notContainer] at hm <;> rfl

/-- Inversion: a successful normalize_result names the exact output. -/
theorem normalize_result_inv (x y : Json) (h : normalize_result x = some y) :
    (builderOf x).isObjB = true ∧ (diviOf x).isObjB = true
      ∧ notContainer (candModuleType x) = true
      ∧ y = normTail (dictCoerce x) (rtypeOf x) (builderOf x) (diviOf x)
          (candModuleType x) := by
  unfold normalize_result at h
  cases hB : builderOf x <;> rw [hB] at h <;> (try dsimp only at h) <;> try simp at h
  cases hD : diviOf x <;> rw [hD] at h <;> (try dsimp only at h) <;> try simp at h
  cases hM : candModuleType x <;> rw [hM] at h <;> (try dsimp only at h) <;> try simp at h
  all_goals exact ⟨rfl, rfl, rfl, h.symm⟩

/-- Projection used by the second diviStep application. -/
theorem diviStep_fix (d2 m : Json) (hm : allowedB m = true)
    (hlm : d2.look "module_type" = some m) (p : Json)
    (hp : d2.look "params" = some p) (hpO : p.isObjB = true) :
    diviStep d2 m = d2 := by
  have hk : d2.hasKeyB "params" = true := by
    unfold Json.hasKeyB
    rw [hp]
    rfl
  dsimp only [diviStep]
  rw [mtClamp_of_allowed m hm, setKey_of_look d2 _ _ hlm, hk,
    getD_of_look d2 _ _ hp, hpO]
  simp

/-- A record whose fields already carry normalized values is left unchanged
by the normalizer's tail. -/
theorem normTail_self (y rtype builder1 divi2 m : Json)
    (hyT : y.look "type" = some rtype)
    (hyB : y.look "builder" = some builder1)
    (hyS : y.hasKeyB "source" = true)
    (hm : allowedB m = true)
    (hb1D : builder1.look "divi" = some divi2)
    (hd2M : divi2.look "module_type" = some m)
    (p : Json) (hp : divi2.look "params" = some p) (hpO : p.isObjB = true) :
    normTail y rtype builder1 divi2 m = y := by
  dsimp only [normTail]
  rw [diviStep_fix divi2 m hm hd2M p hp hpO]
  rw [setKey_of_look _ _ _ hb1D, setKey_of_look _ _ _ hyB, setKey_of_look _ _ _ hyT]
  dsimp only [sourceStep]
  rw [hyS]
  simp

/-- A record produced by the normalizer's tail is a fixed point of the
whole normalizer. -/
theorem normTail_fix (r0 rtype builder divi mt0 : Json)
    (hr0 : r0.isObjB = true) (hrt : truthy rtype = true)
    (hb : builder.isObjB = true) (hd : divi.isObjB = true)
    (hmt : truthy mt0 = true) (hmn : notContainer mt0 = true) :
    normalize_result (normTail r0 rtype builder divi mt0)
      = some (normTail r0 rtype builder divi mt0) := by
  have hyO : (normTail r0 rtype builder divi mt0).isObjB = true :=
    normTail_isObjB r0 rtype builder divi mt0 hr0
  have hyT := normTail_look_type r0 rtype builder divi mt0 hr0
  have hyB := normTail_look_builder r0 rtype builder divi mt0 hr0
  have hyS := normTail_hasKey_source r0 rtype builder divi mt0 hr0
  have hb1O : (builder.setKey "divi" (diviStep divi mt0)).isObjB = true :=
    setKey_isObjB builder hb _ _
  have hb1T : truthy (builder.setKey "divi" (diviStep divi mt0)) = true :=
    setKey_truthy builder hb _ _
  have hb1D : (builder.setKey "divi" (diviStep divi mt0)).look "divi"
      = some (diviStep divi mt0) := look_setKey_self builder hb _ _
  have hd2O := diviStep_isObjB divi mt0 hd
  have hd2T := diviStep_truthy divi mt0 hd
  have hd2M := diviStep_look_mt divi mt0 hd
  obtain ⟨p, hp, hpO⟩ := diviStep_params divi mt0 hd
  have e0 : dictCoerce (normTail r0 rtype builder divi mt0)
      = normTail r0 rtype builder divi mt0 := dictCoerce_of_isObjB _ hyO
  have e1 : rtypeOf (normTail r0 rtype builder divi mt0) = rtype := by
    unfold rtypeOf
    rw [e0, getD_of_look _ _ _ hyT]
    exact pyOr_of_truthy _ _ hrt
  have e2 : builderOf (normTail r0 rtype builder divi mt0)
      = builder.setKey "divi" (diviStep divi mt0) := by
    unfold builderOf
    rw [e0, getD_of_look _ _ _ hyB]
    exact pyOr_of_truthy _ _ hb1T
  have e3 : diviOf (normTail r0 rtype builder divi mt0) = diviStep divi mt0 := by
    unfold diviOf
    rw [e2, getD_of_look _ _ _ hb1D]
    exact pyOr_of_truthy _ _ hd2T
  have e4 : candModuleType (normTail r0 rtype builder divi mt0) = mtClamp mt0 := by
    unfold candModuleType
    rw [e3, getD_of_look _ _ _ hd2M]
    exact pyOr_of_truthy _ _ (truthy_mtClamp mt0 hmt)
  rw [normalize_result_eq_some _ (by rw [e2]; exact hb1O) (by rw [e3]; exact hd2O)
    (by rw [e4]; exact notContainer_mtClamp mt0 hmn)]
  rw [e0, e1, e2, e3, e4]
  congr 1
  exact normTail_self _ rtype _ _ _ hyT hyB hyS (allowedB_mtClamp mt0) hb1D hd2M
    p hp hpO

/-- Successful normalization is idempotent pointwise. -/
theorem normalize_result_fix (x y : Json) (h : normalize_result x = some y) :
    normalize_result y = some y := by
  obtain ⟨hb, hd, hm, hy⟩ := normalize_result_inv x y h
  rw [hy]
  exact normTail_fix _ _ _ _ _ (dictCoerce_isObjB x) (rtypeOf_truthy x) hb hd
    (candModuleType_truthy x) hm

theorem mtClamp_of_not_allowed (m : Json) (hn : notContainer m = true)
    (ha : allowedB m = false) : mtClamp m = Json.str "generic" := by
  cases m with
  | arr xs => simp [notContainer] at hn
  | obj kvs => simp [notContainer] at hn
  | str s =>
    have hs : s ≠ "code" := by
      intro hEq
      subst hEq
      exact absurd ha (by decide)
    unfold mtClamp
    rw [ha]
    simp [neqCodeStr, hs]
  | null =>
    unfold mtClamp
    rw [ha]
    simp [neqCodeStr]
  | bool b =>
    unfold mtClamp
    rw [ha]
    simp [neqCodeStr]
  | num n =>
    unfold mtClamp
    rw [ha]
    simp [neqCodeStr]

/-- The module_type of a successfully normalized record, through the
output's builder and divi fields. -/
theorem normalize_out_moduleType (x y : Json) (h : normalize_result x = some y) :
    ((y.getD "builder").getD "divi").getD "module_type"
      = mtClamp (candModuleType x) := by
  obtain ⟨hb, hd, _, hy⟩ := normalize_result_inv x y h
  subst hy
  rw [getD_of_look _ _ _ (normTail_look_builder _ _ _ _ _ (dictCoerce_isObjB x))]
  rw [getD_of_look _ _ _ (look_setKey_self _ hb _ _)]
  rw [getD_of_look _ _ _ (diviStep_look_mt _ _ hd)]

/-- The params of a successfully normalized record are a dict. -/
theorem normalize_out_params (x y : Json) (h : normalize_result x = some y) :
    (((y.getD "builder").getD "divi").getD "params").isObjB = true := by
  obtain ⟨hb, hd, _, hy⟩ := normalize_result_inv x y h
  subst hy
  rw [getD_of_look _ _ _ (normTail_look_builder _ _ _ _ _ (dictCoerce_isObjB x))]
  rw [getD_of_look _ _ _ (look_setKey_self _ hb _ _)]
  obtain ⟨p, hp, hpO⟩ := diviStep_params _ (candModuleType x) hd
  rw [getD_of_look _ _ _ hp]
  exact hpO

/-- Counterexample to claim C1: a record whose builder field is the truthy
non-dict 1 makes normalize_result raise an AttributeError at
builder.get("divi") (modelled as none), so the Normalizer is not total. -/
theorem claim_C1_cex : normalize_result (Json.obj [("builder", Json.num 1)]) = none := rfl

/-- Claim C1 (amended): on every input whose builder and builder.divi reads
land on dicts (or falsy values) and whose effective module_type is not a
truthy list or dict, normalize_result succeeds and its output satisfies
invariants 2 and 3 of spec section 3: the output moduleType is in the
allowed module set and the output params is a dict.  Invariant 1
(sectionType membership) is not enforced, see claim C2. -/
theorem claim_C1_normalizer_total_on_ok (x : Json) (h : normalizeOk x = true) :
    ∃ out, normalize_result x = some out
      ∧ allowedB (((out.getD "builder").getD "divi").getD "module_type") = true
      ∧ (((out.getD "builder").getD "divi").getD "params").isObjB = true := by
  simp only [normalizeOk, Bool.and_eq_true] at h
  obtain ⟨⟨hb, hd⟩, hm⟩ := h
  have hsome := normalize_result_eq_some x hb hd hm
  refine ⟨_, hsome, ?_, ?_⟩
  · rw [normalize_out_moduleType x _ hsome]
    exact allowedB_mtClamp _
  · exact normalize_out_params x _ hsome

/-- Witness for claim C1 at a concrete well-shaped input. -/
theorem claim_C1_witness :
    ∃ out, normalize_result (Json.obj [("type", Json.str "hero")]) = some out
      ∧ allowedB (((out.getD "builder").getD "divi").getD "module_type") = true
      ∧ (((out.getD "builder").getD "divi").getD "params").isObjB = true :=
  claim_C1_normalizer_total_on_ok (Json.obj [("type", Json.str "hero")]) (by decide)

/-- Counterexample to claim C2: the truthy out-of-set sectionType
not-a-real-type passes through normalize_result unchanged instead of being
clamped to generic. -/
theorem claim_C2_cex :
    Option.map (fun r => Json.getD r "type")
        (normalize_result (Json.obj [("type", Json.str "not-a-real-type")]))
      = some (Json.str "not-a-real-type")
    ∧ Json.str "not-a-real-type" ≠ Json.str "generic" := by
  refine ⟨rfl, ?_⟩
  intro h
  injection h with h2
  exact absurd h2 (by decide)

/-- Claim C2 (amended): the Normalizer defaults the type field to generic
only when the candidate's type is absent or falsy; any truthy type value
(in or out of any configured set) is passed through verbatim.  The output
type field always equals the Python expression result.get("type") or
"generic". -/
theorem claim_C2_type_default_only (x y : Json) (h : normalize_result x = some y) :
    y.getD "type" = rtypeOf x := by
  obtain ⟨_, _, _, hy⟩ := normalize_result_inv x y h
  subst hy
  exact getD_of_look _ _ _ (normTail_look_type _ _ _ _ _ (dictCoerce_isObjB x))

/-- Witness for claim C2 at a concrete input with an absent type. -/
theorem claim_C2_witness :
    Json.getD (Json.obj [("builder", Json.obj [("divi", Json.obj
        [("module_type", Json.str "generic"), ("params", Json.obj [])])]),
      ("type", Json.str "generic"), ("source", Json.str "llm")]) "type"
      = rtypeOf (Json.obj []) :=
  claim_C2_type_default_only (Json.obj []) _ rfl

/-- Counterexample to claim C3: with module_type absent the Normalizer
emits generic, not the fallback code that the claim names. -/
theorem claim_C3_cex :
    Option.map (fun r => ((r.getD "builder").getD "divi").getD "module_type")
        (normalize_result (Json.obj []))
      = some (Json.str "generic")
    ∧ Json.str "generic" ≠ Json.str "code" := by
  refine ⟨rfl, ?_⟩
  intro h
  injection h with h2
  exact absurd h2 (by decide)

/-- Claim C3 (amended): when the candidate's effective module_type (after
the or-default to generic) is not a member of the allowed module set, the
Normalizer's output moduleType is the string generic - the designated
fallback is generic, not code. -/
theorem claim_C3_moduleType_fallback_generic (x y : Json)
    (h : normalize_result x = some y)
    (hna : allowedB (candModuleType x) = false) :
    ((y.getD "builder").getD "divi").getD "module_type" = Json.str "generic" := by
  obtain ⟨_, _, hm, _⟩ := normalize_result_inv x y h
  rw [normalize_out_moduleType x y h]
  exact mtClamp_of_not_allowed _ hm hna

/-- Witness for claim C3 at a concrete out-of-set module_type. -/
theorem claim_C3_witness :
    ((Json.getD (Json.obj [("builder", Json.obj [("divi", Json.obj
        [("module_type", Json.str "generic"), ("params", Json.obj [])])]),
      ("type", Json.str "generic"), ("source", Json.str "llm")]) "builder").getD
        "divi").getD "module_type" = Json.str "generic" :=
  claim_C3_moduleType_fallback_generic
    (Json.obj [("builder", Json.obj [("divi", Json.obj
      [("module_type", Json.str "not-a-module")])])]) _ rfl (by decide)

/-- Claim C8: the Normalizer is idempotent: applying normalize_result to
its own successful output returns that output unchanged, and on the raise
paths the composition raises exactly where the single application does. -/
theorem claim_C8_normalize_idempotent (x : Json) :
    (normalize_result x).bind normalize_result = normalize_result x := by
  cases h : normalize_result x with
  | none => rfl
  | some y => simpa using normalize_result_fix x y h

/-- Counterexample to claim C4: on the trailing-comma input the Extractor
performs no repair - the brace span comes back verbatim, still ending in a
comma before the closing brace - and json parsing of it fails, so the
parsed object the claim promises is never produced. -/
theorem claim_C4_cex :
    json_loads (extract_json "\x7b\"a\":1,\x7d") = none
    ∧ extract_json "\x7b\"a\":1,\x7d" = "\x7b\"a\":1,\x7d" := ⟨rfl, rfl⟩

/-- Claim C4 (amended): there is no trailing-comma repair anywhere in the
pipeline; on that input extract_json returns the text unchanged, the JSON
parse raises, llm_classify raises ValueError, and the LLM branch of main
degrades to the fallback_error record. -/
theorem claim_C4_no_comma_repair :
    extract_json "\x7b\"a\":1,\x7d" = "\x7b\"a\":1,\x7d"
    ∧ json_loads "\x7b\"a\":1,\x7d" = none
    ∧ main_llm_branch "\x7b\"a\":1,\x7d" = some fallback_error_record :=
  ⟨rfl, rfl, rfl⟩

theorem firstIdx_get (c : Char) (l : List Char) (i : Nat)
    (h : firstIdx c l = some i) : l.get? i = some c := by
  induction l generalizing i with
  | nil => simp [firstIdx] at h
  | cons a rest ih =>
    by_cases ha : a = c
    · simp [firstIdx, ha] at h
      subst h
      simp [ha]
    · simp [firstIdx, ha] at h
      obtain ⟨k, hk, hki⟩ := h
      subst hki
      simpa using ih k hk

theorem lastIdx_get (c : Char) (l : List Char) (j : Nat)
    (h : lastIdx c l = some j) : l.get? j = some c := by
  unfold lastIdx at h
  simp only [Option.map_eq_some'] at h
  obtain ⟨k, hk, hkj⟩ := h
  have hget := firstIdx_get c l.reverse k hk
  have hlt : k < l.reverse.length := by
    by_contra hge
    rw [List.get?_eq_none.mpr (by omega)] at hget
    exact absurd hget (by simp)
  rw [List.get?_reverse (by simpa using hlt)] at hget
  simpa [hkj, List.length_reverse] using hget

/-- Counterexample to claim C5: on a brace-free input the Text Extractor
does not fail with a structured NoObjectFound; the function is total and
hands back the stripped input text as the candidate. -/
theorem claim_C5_cex : extract_json "hello" = "hello" := rfl

/-- Claim C5 (amended): when no close brace strictly follows the first
open brace (in particular when either brace is absent), extract_json
returns the whitespace-stripped input text instead of any structured
failure; the eventual failure surfaces only later, as the JSON parse error
inside llm_classify. -/
theorem claim_C5_no_span_returns_strip (s : String)
    (h : ∀ i j : Nat, i < j → s.data.get? i = some '{' →
      s.data.get? j = some '}' → False) :
    extract_json s = pyStrip s := by
  unfold extract_json
  cases hF : firstIdx '{' s.data with
  | none => rfl
  | some i =>
    cases hL : lastIdx '}' s.data with
    | none => rfl
    | some j =>
      have hi := firstIdx_get _ _ _ hF
      have hj := lastIdx_get _ _ _ hL
      dsimp only
      split
      · rename_i hij
        exact (h i j hij hi hj).elim
      · rfl

/-- Witness for claim C5 at a concrete brace-free input. -/
theorem claim_C5_witness : extract_json "no braces here" = pyStrip "no braces here" :=
  claim_C5_no_span_returns_strip "no braces here" (fun i j _ hi _ => by
    have hm := List.get?_mem hi
    revert hm
    decide)

/-- Counterexample to claim C6: with brace-free inference output the
pipeline's record carries the source tag fallback_error, not default. -/
theorem claim_C6_cex :
    Option.map (fun r => Json.getD r "source")
        (main_classify "just random text" "I cannot help with that.")
      = some (Json.str "fallback_error")
    ∧ Json.str "fallback_error" ≠ Json.str "default" := by
  refine ⟨rfl, ?_⟩
  intro h
  injection h with h2
  exact absurd h2 (by decide)

/-- Claim C6 (amended): whenever the html is non-blank, no heuristic rule
matches, and the JSON-handling tail of llm_classify raises (as it does for
brace-free output such as the quoted refusal), main returns the last-resort
record whose provenance tag is fallback_error (with type generic and
module_type code). -/
theorem claim_C6_no_object_fallback (html out_text : String)
    (h1 : pyStrip html ≠ "")
    (h2 : heuristic_classify html = none)
    (h3 : llm_classify_model out_text = none) :
    main_classify html out_text = some fallback_error_record := by
  unfold main_classify
  rw [if_neg h1, h2]
  unfold main_llm_branch
  rw [h3]

/-- Witness for claim C6 at the claim's quoted inference output. -/
theorem claim_C6_witness :
    main_classify "just random text" "I cannot help with that."
      = some fallback_error_record :=
  claim_C6_no_object_fallback "just random text" "I cannot help with that."
    (by decide) rfl rfl

/-- Counterexample to claim C7: for whitespace-only html the pipeline's
record carries the source tag empty, not default. -/
theorem claim_C7_cex :
    Option.map (fun r => Json.getD r "source") (main_classify "   " "")
      = some (Json.str "empty")
    ∧ Json.str "empty" ≠ Json.str "default" := by
  refine ⟨rfl, ?_⟩
  intro h
  injection h with h2
  exact absurd h2 (by decide)

/-- Claim C7 (amended): blank (empty or whitespace-only) html does
short-circuit the pipeline before heuristics and inference, but the record
returned is the empty-input record, whose provenance tag is empty (with
type generic and module_type code), not default. -/
theorem claim_C7_blank_short_circuit (html out_text : String)
    (h : pyStrip html = "") :
    main_classify html out_text = some empty_record := by
  unfold main_classify
  rw [if_pos h]

/-- Witness for claim C7 at the empty html. -/
theorem claim_C7_witness : main_classify "" "unused" = some empty_record :=
  claim_C7_blank_short_circuit "" "unused" rfl

theorem lowerChar_ne_P (c : Char) : lowerChar c ≠ 'P' := by
  intro h
  unfold lowerChar at h
  split at h <;> simp_all

theorem mem_of_prefCh (p : List Char) : ∀ s, prefCh p s = true → ∀ c ∈ p, c ∈ s := by
  induction p with
  | nil => simp
  | cons a as ih =>
    intro s hp c hc
    cases s with
    | nil => simp [prefCh] at hp
    | cons b bs =>
      simp only [prefCh, Bool.and_eq_true, decide_eq_true_eq] at hp
      obtain ⟨hab, hrest⟩ := hp
      subst hab
      rcases List.mem_cons.mp hc with hc1 | hc2
      · subst hc1
        exact List.mem_cons_self _ _
      · exact List.mem_cons_of_mem _ (ih bs hrest c hc2)

theorem mem_of_hasSubstr (p s : List Char) (h : hasSubstr p s = true) :
    ∀ c ∈ p, c ∈ s := by
  induction s with
  | nil =>
    cases p with
    | nil => simp
    | cons a as => simp [hasSubstr, prefCh] at h
  | cons b bs ih =>
    simp only [hasSubstr, Bool.or_eq_true] at h
    rcases h with h1 | h2
    · exact mem_of_prefCh p _ h1
    · intro c hc
      exact List.mem_cons_of_mem _ (ih h2 c hc)

/-- The lowercased normalized text can never contain the mixed-case hero
trigger of line 132: lowercasing leaves no capital P anywhere. -/
theorem prep_no_wordPress (html : String) :
    pyInStr "wordPress in seconds" (prepText html) = false := by
  by_contra hcon
  rw [Bool.not_eq_false] at hcon
  have hm : 'P' ∈ (prepText html).data :=
    mem_of_hasSubstr _ _ hcon 'P' (by decide)
  have hm2 : 'P' ∈ (normalize_whitespace (stripTags html)).data.map lowerChar := hm
  obtain ⟨a, _, ha⟩ := List.mem_map.mp hm2
  exact lowerChar_ne_P a ha

/-- The heuristic cascade returns the record of the least-index matching
rule. -/
theorem heuristic_first (html : String) (k : Nat) (hk : k < 9)
    (hp : rulePred k (prepText html) = true)
    (hmin : ∀ m, m < k → rulePred m (prepText html) = false) :
    heuristic_classify html = some (ruleRecord k) := by
  interval_cases k
  · simp only [rulePred] at hp
    dsimp only [heuristic_classify]
    simp [hp, ruleRecord]
  · have h0 := hmin 0 (by omega)
    simp only [rulePred] at hp h0
    dsimp only [heuristic_classify]
    simp [hp, h0, ruleRecord]
  · have h0 := hmin 0 (by omega)
    have h1 := hmin 1 (by omega)
    simp only [rulePred] at hp h0 h1
    dsimp only [heuristic_classify]
    simp [hp, h0, h1, ruleRecord]
  · have h0 := hmin 0 (by omega)
    have h1 := hmin 1 (by omega)
    have h2 := hmin 2 (by omega)
    simp only [rulePred] at hp h0 h1 h2
    dsimp only [heuristic_classify]
    simp [hp, h0, h1, h2, ruleRecord]
  · have h0 := hmin 0 (by omega)
    have h1 := hmin 1 (by omega)
    have h2 := hmin 2 (by omega)
    have h3 := hmin 3 (by omega)
    simp only [rulePred] at hp h0 h1 h2 h3
    dsimp only [heuristic_classify]
    simp [hp, h0, h1, h2, h3, ruleRecord]
  · have h0 := hmin 0 (by omega)
    have h1 := hmin 1 (by omega)
    have h2 := hmin 2 (by omega)
    have h3 := hmin 3 (by omega)
    have h4 := hmin 4 (by omega)
    simp only [rulePred] at hp h0 h1 h2 h3 h4
    dsimp only [heuristic_classify]
    simp [hp, h0, h1, h2, h3, h4, ruleRecord]
  · have h0 := hmin 0 (by omega)
    have h1 := hmin 1 (by omega)
    have h2 := hmin 2 (by omega)
    have h3 := hmin 3 (by omega)
    have h4 := hmin 4 (by omega)
    have h5 := hmin 5 (by omega)
    simp only [rulePred] at hp h0 h1 h2 h3 h4 h5
    dsimp only [heuristic_classify]
    simp [hp, h0, h1, h2, h3, h4, h5, ruleRecord]
  · have h0 := hmin 0 (by omega)
    have h1 := hmin 1 (by omega)
    have h2 := hmin 2 (by omega)
    have h3 := hmin 3 (by omega)
    have h4 := hmin 4 (by omega)
    have h5 := hmin 5 (by omega)
    have h6 := hmin 6 (by omega)
    simp only [rulePred] at hp h0 h1 h2 h3 h4 h5 h6
    dsimp only [heuristic_classify]
    simp [hp, h0, h1, h2, h3, h4, h5, h6, ruleRecord]
  · have h0 := hmin 0 (by omega)
    have h1 := hmin 1 (by omega)
    have h2 := hmin 2 (by omega)
    have h3 := hmin 3 (by omega)
    have h4 := hmin 4 (by omega)
    have h5 := hmin 5 (by omega)
    have h6 := hmin 6 (by omega)
    have h7 := hmin 7 (by omega)
    simp only [rulePred] at hp h0 h1 h2 h3 h4 h5 h6 h7
    dsimp only [heuristic_classify]
    simp [hp, h0, h1, h2, h3, h4, h5, h6, h7, ruleRecord]

/-- Claim C9: the heuristic classifier respects registration priority:
whenever two rules both match the normalized text, the returned record is
that of the earliest-registered matching rule (the least matching index,
which is at most the earlier of the two). -/
theorem claim_C9_heuristic_priority (html : String) (i j : Nat) (hj9 : j < 9)
    (hij : i < j)
    (hi : rulePred i (prepText html) = true)
    (hjp : rulePred j (prepText html) = true) :
    ∃ k, k ≤ i ∧ rulePred k (prepText html) = true
      ∧ (∀ m, m < k → rulePred m (prepText html) = false)
      ∧ heuristic_classify html = some (ruleRecord k) := by
  have hex : ∃ n, rulePred n (prepText html) = true := ⟨i, hi⟩
  have hle : Nat.find hex ≤ i := Nat.find_min' hex hi
  have hmin : ∀ m, m < Nat.find hex → rulePred m (prepText html) = false :=
    fun m hm => Bool.eq_false_iff.mpr (Nat.find_min hex hm)
  exact ⟨Nat.find hex, hle, Nat.find_spec hex, hmin,
    heuristic_first html (Nat.find hex) (by omega) (Nat.find_spec hex) hmin⟩

/-- Witness for claim C9: text matching both the pricing rule (index 0)
and the testimonials rule (index 1) yields the pricing record. -/
theorem claim_C9_witness :
    ∃ k, k ≤ 0 ∧ rulePred k (prepText "pricing $ and a testimonial") = true
      ∧ (∀ m, m < k → rulePred m (prepText "pricing $ and a testimonial") = false)
      ∧ heuristic_classify "pricing $ and a testimonial" = some (ruleRecord k) :=
  claim_C9_heuristic_priority "pricing $ and a testimonial" 0 1 (by omega)
    (by omega) (by decide) (by decide)

/-- Claim C10: the hero rule's first disjunct is dead code - the trigger
string of line 132 contains a capital P while the matched text is
lowercased - so text containing only the lowercase phrase wordpress in
seconds (and no other rule trigger) matches no rule at all and
heuristic_classify returns none instead of the hero record. -/
theorem claim_C10_hero_disjunct_dead (html : String)
    (hpos : pyInStr "wordpress in seconds" (prepText html) = true)
    (hn01 : pyInStr "pricing" (prepText html) = false)
    (hn02 : pyInStr "$" (prepText html) = false)
    (hn03 : pyInStr "testimonial" (prepText html) = false)
    (hn04 : pyInStr "what our clients say" (prepText html) = false)
    (hn05 : pyInStr "saved me hours" (prepText html) = false)
    (hn06 : pyInStr "contact" (prepText html) = false)
    (hn07 : pyInStr "send message" (prepText html) = false)
    (hn08 : pyInStr "email" (prepText html) = false)
    (hn09 : pyInStr "message" (prepText html) = false)
    (hn10 : pyInStr "form" (prepText html) = false)
    (hn11 : pyInStr "how it works" (prepText html) = false)
    (hn12 : pyInStr "three steps" (prepText html) = false)
    (hn13 : pyInStr "step 01" (prepText html) = false)
    (hn14 : pyInStr "features" (prepText html) = false)
    (hn15 : pyInStr "why use" (prepText html) = false)
    (hn16 : pyInStr "bridge" (prepText html) = false)
    (hn17 : pyInStr "gemini pro layouts" (prepText html) = false)
    (hn18 : pyInStr "stop rebuilding ai designs" (prepText html) = false)
    (hn19 : pyInStr "secure by design" (prepText html) = false)
    (hn20 : pyInStr "no api keys required" (prepText html) = false)
    (hn21 : pyInStr "&copy" (prepText html) = false)
    (hn22 : pyInStr "all rights reserved" (prepText html) = false)
    (hn23 : pyInStr "#pricing" (prepText html) = false)
    (hn24 : pyInStr "#features" (prepText html) = false)
    (hn25 : pyInStr "#how-it-works" (prepText html) = false) :
    heuristic_classify html = none := by
  have hP := prep_no_wordPress html
  dsimp only [heuristic_classify]
  simp [hP, hn01, hn02, hn03, hn04, hn05, hn06, hn07, hn08, hn09, hn10, hn11,
    hn12, hn13, hn14, hn15, hn16, hn17, hn18, hn19, hn20, hn21, hn22, hn23,
    hn24, hn25]

/-- Witness for claim C10 at the concrete lowercase phrase. -/
theorem claim_C10_witness : heuristic_classify "wordpress in seconds" = none :=
  claim_C10_hero_disjunct_dead "wordpress in seconds" (by decide) (by decide)
    (by decide) (by decide) (by decide) (by decide) (by decide) (by decide)
    (by decide) (by decide) (by decide) (by decide) (by decide) (by decide)
    (by decide) (by decide) (by decide) (by decide) (by decide) (by decide)
    (by decide) (by decide) (by decide) (by decide) (by decide) (by decide)
